import Mathlib

/-!
Shallow embedding of `drawling` (src/src/lib.rs), a reactive 2-D drawing tool.

Modelling conventions:
* `f64` values are modelled as exact rationals `ℚ`.
* Leptos `RwSignal<T>` cells are flattened to their current value `T`; a
  signal handle stored in `InferTarget` is modelled as an address into the
  step list (signal identity = slot address).
* Rust panics (`expect`, `panic!`, `todo!`, out-of-bounds indexing) are
  modelled as distinguished error values of `RErr`, so that "the program
  aborts here" is observable as an `Except.error` that propagates and kills
  the whole computation (e.g. a redraw pass).
* The recursive reference resolution of the source is unbounded (it can
  diverge on reference cycles); the embedding threads an explicit fuel
  parameter, with exhaustion reported as `RErr.outOfFuel`.
-/

/-- `Point` (lib.rs line 12): a concrete coordinate pair. -/
structure Point where
  x : ℚ
  y : ℚ
  deriving DecidableEq, Repr

/-- `DataRefPathEl` (lib.rs line 65). -/
inductive DataRefPathEl where
  | Step : DataRefPathEl
  | Data : DataRefPathEl
  | WithId (id : Nat) : DataRefPathEl
  | PropName (name : String) : DataRefPathEl
  deriving DecidableEq, Repr

/-- `DataRef` (lib.rs line 73): a reference path. -/
structure DataRef where
  els : List DataRefPathEl
  deriving DecidableEq, Repr

/-- `ResolvableTo<T>` (lib.rs line 26): literal or reference. -/
inductive ResolvableTo (α : Type) where
  | T (t : α) : ResolvableTo α
  | Ref (r : DataRef) : ResolvableTo α
  deriving DecidableEq, Repr

/-- `PointSignal` (lib.rs line 4): a pair of resolvable scalar slots
(the `RwSignal` wrappers are flattened to their current values). -/
structure PointSignal where
  x : ResolvableTo ℚ
  y : ResolvableTo ℚ
  deriving DecidableEq, Repr

/-- `StepData` (lib.rs line 56). -/
inductive StepData where
  | DrawPoint (point : ResolvableTo PointSignal) : StepData
  | DrawLine (start end_ : ResolvableTo PointSignal) : StepData
  deriving DecidableEq, Repr

/-- `Step` (lib.rs line 219). -/
structure Step where
  id : Nat
  data : StepData
  deriving DecidableEq, Repr

/-- Error / abort outcomes of resolution.  The `panic…` and `todo…`
constructors model Rust aborts (`expect`, `panic!`, `todo!`, index
out of bounds); `outOfFuel` models the divergence possible in the
unbounded recursion of the source. -/
inductive RErr where
  | outOfFuel : RErr
  | panicInvalidStepId : RErr
  | panicInvalidProp : RErr
  | todoUnreached : RErr
  | panicIndexOOB : RErr
  deriving DecidableEq, Repr

mutual

/-- `impl ResolveToNumber for ResolvableTo<NumberSignal>` (lib.rs lines 46-53). -/
def resolveNum (steps : List Step) : Nat → ResolvableTo ℚ → Except RErr ℚ
  | 0, _ => .error .outOfFuel
  | _ + 1, .T n => .ok n
  | fuel + 1, .Ref r => resolveRefNum steps fuel r
termination_by structural fuel _ => fuel

/-- `impl ResolveToPoint for ResolvableTo<PointSignal>` (lib.rs lines 34-44). -/
def resolvePoint (steps : List Step) : Nat → ResolvableTo PointSignal → Except RErr Point
  | 0, _ => .error .outOfFuel
  | fuel + 1, .T p => do
      let x ← resolveNum steps fuel p.x
      let y ← resolveNum steps fuel p.y
      pure ⟨x, y⟩
  | fuel + 1, .Ref r => resolveRefPoint steps fuel r
termination_by structural fuel _ => fuel

/-- `impl ResolveToNumber for DataRef` (lib.rs lines 90-132).  Matches the
source's element-by-element inspection, including its panics: a missing
step id hits `.expect("Invalid step id")`, an unexpected element kind hits
`todo!()`, and indexing past the end of the path panics. -/
def resolveRefNum (steps : List Step) : Nat → DataRef → Except RErr ℚ
  | 0, _ => .error .outOfFuel
  | fuel + 1, ⟨els⟩ =>
    match els.get? 0 with
    | some .Step =>
      match els.get? 1 with
      | some (.WithId step_id) =>
        match steps.find? (fun d => d.id == step_id) with
        | none => .error .panicInvalidStepId
        | some step =>
          match step.data with
          | .DrawPoint point =>
            match els.get? 2 with
            | some (.PropName "x") => (resolvePoint steps fuel point).map (·.x)
            | some (.PropName "y") => (resolvePoint steps fuel point).map (·.y)
            | some _ => .error .todoUnreached
            | none => .error .panicIndexOOB
          | .DrawLine start end_ =>
            match els.get? 2 with
            | some (.PropName "start") =>
              match els.get? 3 with
              | some (.PropName "x") => (resolvePoint steps fuel start).map (·.x)
              | some (.PropName "y") => (resolvePoint steps fuel start).map (·.y)
              | some _ => .error .todoUnreached
              | none => .error .panicIndexOOB
            | some (.PropName "end") =>
              match els.get? 3 with
              | some (.PropName "x") => (resolvePoint steps fuel end_).map (·.x)
              | some (.PropName "y") => (resolvePoint steps fuel end_).map (·.y)
              | some _ => .error .todoUnreached
              | none => .error .panicIndexOOB
            | some _ => .error .todoUnreached
            | none => .error .panicIndexOOB
      | some _ => .error .todoUnreached
      | none => .error .panicIndexOOB
    | some .Data => .error .todoUnreached
    | some _ => .error .todoUnreached
    | none => .error .panicIndexOOB
termination_by structural fuel _ => fuel

/-- `impl ResolveToPoint for DataRef` (lib.rs lines 134-187).  For a
`DrawLine` target both endpoints are resolved eagerly before the property
name is dispatched, exactly as in the source; `"mid"` is computed as the
componentwise average of the two resolved endpoints.  Unknown step ids and
invalid property names hit the source's `expect` / `panic!`. -/
def resolveRefPoint (steps : List Step) : Nat → DataRef → Except RErr Point
  | 0, _ => .error .outOfFuel
  | fuel + 1, ⟨els⟩ =>
    match els.get? 0 with
    | some .Step =>
      match els.get? 1 with
      | some (.WithId step_id) =>
        match steps.find? (fun d => d.id == step_id) with
        | none => .error .panicInvalidStepId
        | some step =>
          match els.get? 2 with
          | some (.PropName prop_name) =>
            match step.data with
            | .DrawPoint point =>
              match prop_name with
              | "self" => resolvePoint steps fuel point
              | _ => .error .panicInvalidProp
            | .DrawLine start end_ => do
              let s ← resolvePoint steps fuel start
              let e ← resolvePoint steps fuel end_
              match prop_name with
              | "start" => pure s
              | "mid" => pure ⟨(s.x + e.x) / 2, (s.y + e.y) / 2⟩
              | "end" => pure e
              | _ => .error .panicInvalidProp
          | some _ => .error .todoUnreached
          | none => .error .panicIndexOOB
      | some _ => .error .todoUnreached
      | none => .error .panicIndexOOB
    | some .Data => .error .todoUnreached
    | some _ => .error .todoUnreached
    | none => .error .panicIndexOOB
termination_by structural fuel _ => fuel

end

instance {ε α : Type} [DecidableEq ε] [DecidableEq α] : DecidableEq (Except ε α) := fun a b =>
  match a, b with
  | .ok a, .ok b =>
    if h : a = b then .isTrue (by rw [h]) else .isFalse (by simp [h])
  | .ok _, .error _ => .isFalse (by simp)
  | .error _, .ok _ => .isFalse (by simp)
  | .error a, .error b =>
    if h : a = b then .isTrue (by rw [h]) else .isFalse (by simp [h])

/-- `Step::snap_points` (lib.rs lines 189-216): one `self` anchor per
`DrawPoint`, three anchors `start`, `mid`, `end` per `DrawLine`. -/
def Step.snap_points (s : Step) : List DataRef :=
  match s.data with
  | .DrawPoint _ => [⟨[.Step, .WithId s.id, .PropName "self"]⟩]
  | .DrawLine _ _ =>
      [⟨[.Step, .WithId s.id, .PropName "start"]⟩,
       ⟨[.Step, .WithId s.id, .PropName "mid"]⟩,
       ⟨[.Step, .WithId s.id, .PropName "end"]⟩]

/-- The memoized snap point index (lib.rs lines 663-666):
`steps.iter().map(|s| s.snap_points()).flatten().collect()`. -/
def snapPointsIndex (steps : List Step) : List DataRef :=
  (steps.map Step.snap_points).flatten

/-- `DataData` (lib.rs line 225). -/
inductive DataData where
  | Number (n : ℚ) : DataData
  | Point (p : PointSignal) : DataData
  deriving DecidableEq, Repr

/-- `Data` (lib.rs line 231). -/
structure Data where
  id : Nat
  data : DataData
  deriving DecidableEq, Repr

/-- Address of a point-valued `RwSignal<ResolvableTo<PointSignal>>` slot
inside the step list.  The source's `InferTarget::Point` stores the signal
handle itself; we model signal identity by the slot's position: the point
slot of the `idx`-th step (`drawPointSlot`), or the start / end slot of the
`idx`-th step when it is a line. -/
inductive PointSlotAddr where
  | drawPointSlot (idx : Nat) : PointSlotAddr
  | lineStartSlot (idx : Nat) : PointSlotAddr
  | lineEndSlot (idx : Nat) : PointSlotAddr
  deriving DecidableEq, Repr

/-- Address of a scalar `RwSignal<ResolvableTo<NumberSignal>>` slot.  The
canvas mousedown handler never dereferences a `Number` target, so only the
identity of the slot matters; it is modelled by an opaque tag. -/
structure NumSlotAddr where
  tag : Nat
  deriving DecidableEq, Repr

/-- `InferTarget` (lib.rs lines 294-298), with signal handles replaced by
slot addresses. -/
inductive InferTarget where
  | Number (addr : NumSlotAddr) : InferTarget
  | Point (addr : PointSlotAddr) : InferTarget
  deriving DecidableEq, Repr

/-- The mutable session state: the `steps` and `datas` signal vectors, the
context-provided armed infer target, and the canvas-local hover candidate
signal (lib.rs lines 623-629, 776-782). -/
structure AppState where
  steps : List Step
  datas : List Data
  infer_target : Option InferTarget
  hover_infer_target : Option (ResolvableTo PointSignal)
  deriving DecidableEq, Repr

/-- Apply `f` to the `i`-th element of the step list (helper realizing a
write through a stored signal handle). -/
def modifyNthStep : List Step → Nat → (Step → Step) → List Step
  | [], _, _ => []
  | s :: rest, 0, f => f s :: rest
  | s :: rest, i + 1, f => s :: modifyNthStep rest i f

/-- Writing a value through the point-slot signal handle `addr`
(the effect of `it.set(...)` in lib.rs line 653). -/
def setPointSlot (steps : List Step) (addr : PointSlotAddr)
    (v : ResolvableTo PointSignal) : List Step :=
  match addr with
  | .drawPointSlot i => modifyNthStep steps i (fun s =>
      match s.data with
      | .DrawPoint _ => { s with data := .DrawPoint v }
      | d => { s with data := d })
  | .lineStartSlot i => modifyNthStep steps i (fun s =>
      match s.data with
      | .DrawLine _ e => { s with data := .DrawLine v e }
      | d => { s with data := d })
  | .lineEndSlot i => modifyNthStep steps i (fun s =>
      match s.data with
      | .DrawLine st _ => { s with data := .DrawLine st v }
      | d => { s with data := d })

/-- The canvas `mousedown_callback` (lib.rs lines 647-656): only when the
armed target is `InferTarget::Point` and the hover candidate is `Some` does
it write the hover value into the armed slot and clear the armed state;
in every other case the state is untouched. -/
def mousedown (st : AppState) : AppState :=
  match st.infer_target, st.hover_infer_target with
  | some (.Point it), some hover =>
      { st with steps := setPointSlot st.steps it hover, infer_target := none }
  | _, _ => st

/-- Arming an infer target: `context_infer_target.set(Some(...))`
(lib.rs lines 342, 405, 431). -/
def armInfer (st : AppState) (t : InferTarget) : AppState :=
  { st with infer_target := some t }

/-- Cancelling an armed infer: the cancel buttons run only
`context_infer_target.set(None)` (lib.rs lines 314-316 for `Number`
targets, lines 376-378 for `Point` targets). -/
def cancelInfer (st : AppState) : AppState :=
  { st with infer_target := none }

/-- The literal `(0, 0)` point signal used for freshly added steps. -/
def zeroPointSignal : PointSignal := ⟨.T 0, .T 0⟩

/-- `add_draw_line_step` (lib.rs lines 786-808): pushes a new step with
`id = s.len()`. -/
def add_draw_line_step (steps : List Step) : List Step :=
  steps ++ [{ id := steps.length,
              data := .DrawLine (.T zeroPointSignal) (.T zeroPointSignal) }]

/-- `add_draw_point_step` (lib.rs lines 809-822): pushes a new step with
`id = s.len()`. -/
def add_draw_point_step (steps : List Step) : List Step :=
  steps ++ [{ id := steps.length, data := .DrawPoint (.T zeroPointSignal) }]

/-- The step remove button (lib.rs lines 504-511):
`s.retain(|s| s.id != step.id)`. -/
def removeStep (steps : List Step) (step_id : Nat) : List Step :=
  steps.filter (fun s => s.id != step_id)

/-- `add_number_data` (lib.rs lines 824-831): pushes `Data` with
`id = d.len()`. -/
def add_number_data (datas : List Data) : List Data :=
  datas ++ [{ id := datas.length, data := .Number 0 }]

/-- A primitive draw command emitted by the redraw pass. -/
inductive DrawCmd where
  | circle (center : Point) : DrawCmd
  | segment (a b : Point) : DrawCmd
  deriving DecidableEq, Repr

/-- Drawing one step in the redraw effect (lib.rs lines 674-701): a literal
`DrawPoint` strokes a circle at its resolved coordinates, a `DrawPoint`
holding a reference hits `todo!()`, and a `DrawLine` resolves both
endpoints and strokes a segment.  Any panic during resolution aborts with
an error, which in the source kills the whole effect. -/
def drawStep (steps : List Step) (fuel : Nat) (step : Step) : Except RErr DrawCmd :=
  match step.data with
  | .DrawPoint point =>
    match point with
    | .T p => do
        let x ← resolveNum steps fuel p.x
        let y ← resolveNum steps fuel p.y
        pure (.circle ⟨x, y⟩)
    | .Ref _ => .error .todoUnreached
  | .DrawLine start end_ => do
      let s ← resolvePoint steps fuel start
      let e ← resolvePoint steps fuel end_
      pure (.segment s e)

/-- The per-step portion of the full-scene redraw (lib.rs lines 673-703):
draw every step in order; the first panic aborts the whole pass. -/
def renderSteps (steps : List Step) (fuel : Nat) : Except RErr (List DrawCmd) :=
  steps.mapM (drawStep steps fuel)

/-- Squared distance between two points.  The source computes
`((spr.x - mouse.x).powi(2) + (spr.y - mouse.y).powi(2)).sqrt()` and
compares it with `5.0`; since both sides are nonnegative, `sqrt d < 5`
holds exactly when `d < 25`, so the embedding compares the squared
distance with `25`. -/
def distSq (a b : Point) : ℚ :=
  (a.x - b.x) ^ 2 + (a.y - b.y) ^ 2

/-- Rust's `f64::round`: round half away from zero
(used on the cursor coordinates in lib.rs lines 724, 728). -/
def rustRound (q : ℚ) : ℚ :=
  if 0 ≤ q then (⌊q + 1 / 2⌋ : ℚ) else -(⌊-q + 1 / 2⌋ : ℚ)

/-- The free-floating hover candidate written first in the armed branch of
the redraw effect (lib.rs lines 721-730): a literal point holding the
rounded cursor coordinates. -/
def roundedCursor (cursor : Point) : ResolvableTo PointSignal :=
  .T ⟨.T (rustRound cursor.x), .T (rustRound cursor.y)⟩

/-- The snap point loop of the armed branch (lib.rs lines 735-744): walk
the snap point index in order, resolve each entry, and overwrite the hover
candidate with `Ref(sp)` whenever the distance to the cursor is below the
threshold.  A resolution panic aborts the effect (modelled by the error
propagating). -/
def hoverLoop (steps : List Step) (fuel : Nat) (cursor : Point) :
    List DataRef → ResolvableTo PointSignal → Except RErr (ResolvableTo PointSignal)
  | [], hover => .ok hover
  | sp :: rest, hover => do
      let spr ← resolveRefPoint steps fuel sp
      if distSq spr cursor < 25 then
        hoverLoop steps fuel cursor rest (.Ref sp)
      else
        hoverLoop steps fuel cursor rest hover

/-- The value held by `hover_infer_target` at the end of the armed branch
of the redraw effect (lib.rs lines 720-745).  The signal is always set to
`Some(...)` there; we model the inner value. -/
def hoverAfterEffect (steps : List Step) (fuel : Nat) (cursor : Point) :
    Except RErr (ResolvableTo PointSignal) :=
  hoverLoop steps fuel cursor (snapPointsIndex steps) (roundedCursor cursor)

/-- Whether a snap point resolves to a point within the hit threshold of
the cursor. -/
def snapHit (steps : List Step) (fuel : Nat) (cursor : Point) (sp : DataRef) : Bool :=
  match resolveRefPoint steps fuel sp with
  | .ok p => decide (distSq p cursor < 25)
  | .error _ => false

/-- The last element of a list satisfying `hit`, if any. -/
def lastMatch (hit : DataRef → Bool) : List DataRef → Option DataRef
  | [] => none
  | sp :: rest =>
    match lastMatch hit rest with
    | some x => some x
    | none => if hit sp then some sp else none

/-- The base reference path of a step's editor view,
`vec![Step, WithId(step.id)]` (lib.rs lines 472-475). -/
def innerStepViewBasePath (step : Step) : List DataRefPathEl :=
  [.Step, .WithId step.id]

/-- `start_path` built by `InnerStepViewDrawLine` (lib.rs lines 448-450):
the base path with `PropName("start")` pushed. -/
def drawLineStartPath (base : List DataRefPathEl) : List DataRefPathEl :=
  base ++ [.PropName "start"]

/-- `end_path` built by `InnerStepViewDrawLine` (lib.rs lines 452-454).
The source pushes `PropName("start")` here as well, not `"end"`. -/
def drawLineEndPath (base : List DataRefPathEl) : List DataRefPathEl :=
  base ++ [.PropName "start"]

/-- `x_path` built by `InnerStepViewDrawPoint` (lib.rs lines 387-389). -/
def scalarXPath (base : List DataRefPathEl) : List DataRefPathEl :=
  base ++ [.PropName "x"]

/-- `y_path` built by `InnerStepViewDrawPoint` (lib.rs lines 391-393). -/
def scalarYPath (base : List DataRefPathEl) : List DataRefPathEl :=
  base ++ [.PropName "y"]

/-- The value committed into the armed number slot by the O button of
`ResolvableToNumberView` (lib.rs line 326):
`ResolvableTo::Ref(DataRef(data_ref_path.get()))`. -/
def committedNumberValue (path : List DataRefPathEl) : ResolvableTo ℚ :=
  .Ref ⟨path⟩

/-- Step kinds, for stating that the snap point index depends only on step
ids and kinds. -/
inductive StepKind where
  | point : StepKind
  | line : StepKind
  deriving DecidableEq, Repr

/-- The kind of a step's data. -/
def StepData.kind : StepData → StepKind
  | .DrawPoint _ => .point
  | .DrawLine _ _ => .line

/-- The shape of a step: its id together with its kind — everything
`snap_points` can depend on. -/
def stepShape (s : Step) : Nat × StepKind :=
  (s.id, s.data.kind)

/-- The snap point index of the session state: the memo reads only the
`steps` signal (lib.rs lines 663-666), so it cannot depend on `datas`. -/
def stateSnapPoints (st : AppState) : List DataRef :=
  snapPointsIndex st.steps

/-- Two steps of equal shape (same id, same kind) expose the same anchors. -/
lemma snap_points_eq_of_shape {a b : Step} (h : stepShape a = stepShape b) :
    a.snap_points = b.snap_points := by
  obtain ⟨ia, da⟩ := a
  obtain ⟨ib, db⟩ := b
  cases da <;> cases db <;>
    simp [stepShape, StepData.kind, Prod.ext_iff] at h <;>
    simp [Step.snap_points, h]

/-- When every snap point in the list resolves successfully, the hover loop
returns the reference to the last entry within the hit threshold, or the
initial hover value when no entry is within threshold. -/
lemma hoverLoop_lastMatch (steps : List Step) (fuel : Nat) (cursor : Point) :
    ∀ (l : List DataRef) (hover : ResolvableTo PointSignal),
      (∀ sp ∈ l, (resolveRefPoint steps fuel sp).isOk = true) →
      hoverLoop steps fuel cursor l hover =
        .ok (match lastMatch (snapHit steps fuel cursor) l with
             | some sp => .Ref sp
             | none => hover) := by
  intro l
  induction l with
  | nil => intro hover _; rfl
  | cons sp rest ih =>
    intro hover h
    obtain ⟨p, hp⟩ : ∃ p, resolveRefPoint steps fuel sp = .ok p := by
      have hm := h sp (by simp)
      cases hres : resolveRefPoint steps fuel sp with
      | ok p => exact ⟨p, rfl⟩
      | error e => rw [hres] at hm; simp [Except.isOk, Except.toBool] at hm
    have hrest : ∀ x ∈ rest, (resolveRefPoint steps fuel x).isOk = true :=
      fun x hx => h x (by simp [hx])
    have hhit : snapHit steps fuel cursor sp = decide (distSq p cursor < 25) := by
      simp [snapHit, hp]
    by_cases hd : distSq p cursor < 25
    · have hstep : hoverLoop steps fuel cursor (sp :: rest) hover =
          hoverLoop steps fuel cursor rest (.Ref sp) := by
        simp [hoverLoop, hp, bind, Except.bind, hd]
      rw [hstep, ih _ hrest]
      cases hlm : lastMatch (snapHit steps fuel cursor) rest <;>
        simp [lastMatch, hlm, hhit, hd]
    · have hstep : hoverLoop steps fuel cursor (sp :: rest) hover =
          hoverLoop steps fuel cursor rest hover := by
        simp [hoverLoop, hp, bind, Except.bind, hd]
      rw [hstep, ih _ hrest]
      cases hlm : lastMatch (snapHit steps fuel cursor) rest <;>
        simp [lastMatch, hlm, hhit, hd]

/-- Claim C1: for every `DrawLine` step present in the step collection,
resolving the reference path `step[id].mid` returns the componentwise
arithmetic mean of the two resolved endpoints: if the start endpoint
resolves to `(x1, y1)` and the end endpoint resolves to `(x2, y2)`, the
`mid` anchor resolves to `((x1 + x2) / 2, (y1 + y2) / 2)` — a computed
value, not a stored further reference. -/
theorem c1_mid_is_mean
    (steps : List Step) (fuel i : Nat) (st : Step)
    (s e : ResolvableTo PointSignal) (p1 p2 : Point)
    (hfind : steps.find? (fun d => d.id == i) = some st)
    (hdata : st.data = .DrawLine s e)
    (hs : resolvePoint steps fuel s = .ok p1)
    (he : resolvePoint steps fuel e = .ok p2) :
    resolveRefPoint steps (fuel + 1) ⟨[.Step, .WithId i, .PropName "mid"]⟩ =
      .ok ⟨(p1.x + p2.x) / 2, (p1.y + p2.y) / 2⟩ := by
  simp [resolveRefPoint, hfind, hdata, hs, he, bind, Except.bind, pure, Except.pure]

/-- Witness for C1: a line with literal endpoints `(0,0)` and `(4,2)`
exposes a `mid` anchor resolving to `((0+4)/2, (0+2)/2) = (2,1)`. -/
theorem c1_mid_is_mean_witness :
    resolvePoint [(⟨0, .DrawLine (.T ⟨.T 0, .T 0⟩) (.T ⟨.T 4, .T 2⟩)⟩ : Step)] 2
        (.T ⟨.T 0, .T 0⟩) = .ok ⟨0, 0⟩ ∧
    resolveRefPoint [(⟨0, .DrawLine (.T ⟨.T 0, .T 0⟩) (.T ⟨.T 4, .T 2⟩)⟩ : Step)] 3
        ⟨[.Step, .WithId 0, .PropName "mid"]⟩ = .ok ⟨(0 + 4) / 2, (0 + 2) / 2⟩ := by
  refine ⟨by simp [resolvePoint, resolveNum, bind, Except.bind, pure, Except.pure], ?_⟩
  exact c1_mid_is_mean _ 2 0 _ _ _ ⟨0, 0⟩ ⟨4, 2⟩ rfl rfl
    (by simp [resolvePoint, resolveNum, bind, Except.bind, pure, Except.pure])
    (by simp [resolvePoint, resolveNum, bind, Except.bind, pure, Except.pure])

/-- Claim C2: the snap point index is exactly the concatenation, in step
order, of the per-step anchors: one `self` path per `DrawPoint`, three
paths `start`, `mid`, `end` per `DrawLine`.  `Data` entities contribute no
entries (appending one leaves the index unchanged), appending a `DrawPoint`
step adds exactly 1 entry, appending a `DrawLine` step adds exactly 3, and
the index depends only on which steps exist and their kinds (ids and
kinds), not on any resolved coordinate value. -/
theorem c2_snap_index
    : (∀ (st : AppState) (d : Data),
        stateSnapPoints { st with datas := st.datas ++ [d] } = stateSnapPoints st)
    ∧ (∀ (steps : List Step) (i : Nat) (p : ResolvableTo PointSignal),
        snapPointsIndex (steps ++ [⟨i, .DrawPoint p⟩]) =
          snapPointsIndex steps ++ [⟨[.Step, .WithId i, .PropName "self"]⟩])
    ∧ (∀ (steps : List Step) (i : Nat) (p : ResolvableTo PointSignal),
        (snapPointsIndex (steps ++ [⟨i, .DrawPoint p⟩])).length =
          (snapPointsIndex steps).length + 1)
    ∧ (∀ (steps : List Step) (i : Nat) (s e : ResolvableTo PointSignal),
        snapPointsIndex (steps ++ [⟨i, .DrawLine s e⟩]) =
          snapPointsIndex steps ++
            [⟨[.Step, .WithId i, .PropName "start"]⟩,
             ⟨[.Step, .WithId i, .PropName "mid"]⟩,
             ⟨[.Step, .WithId i, .PropName "end"]⟩])
    ∧ (∀ (steps : List Step) (i : Nat) (s e : ResolvableTo PointSignal),
        (snapPointsIndex (steps ++ [⟨i, .DrawLine s e⟩])).length =
          (snapPointsIndex steps).length + 3)
    ∧ (∀ (s1 s2 : List Step), s1.map stepShape = s2.map stepShape →
        snapPointsIndex s1 = snapPointsIndex s2) := by
  have hshape : ∀ (s1 s2 : List Step), s1.map stepShape = s2.map stepShape →
      snapPointsIndex s1 = snapPointsIndex s2 := by
    intro s1
    induction s1 with
    | nil => intro s2 h; cases s2 with
      | nil => rfl
      | cons b bs => simp at h
    | cons a as ih =>
      intro s2 h
      cases s2 with
      | nil => simp at h
      | cons b bs =>
        simp only [List.map_cons, List.cons.injEq] at h
        simp only [snapPointsIndex, List.map_cons, List.flatten_cons]
        rw [snap_points_eq_of_shape h.1]
        have hbs := ih bs h.2
        simpa [snapPointsIndex] using hbs
  refine ⟨fun st d => rfl, ?_, ?_, ?_, ?_, hshape⟩
  · intro steps i p
    simp [snapPointsIndex, Step.snap_points]
  · intro steps i p
    simp [snapPointsIndex, Step.snap_points]
  · intro steps i s e
    simp [snapPointsIndex, Step.snap_points]
  · intro steps i s e
    simp [snapPointsIndex, Step.snap_points]

/-- Witness for C2: two step lists with identical ids and kinds but
different stored coordinates (one even holding a reference instead of a
literal) produce the same snap point index. -/
theorem c2_snap_index_witness :
    snapPointsIndex
        [⟨0, .DrawPoint (.T ⟨.T 1, .T 2⟩)⟩,
         ⟨1, .DrawLine (.T ⟨.T 3, .T 4⟩) (.T ⟨.T 5, .T 6⟩)⟩] =
      snapPointsIndex
        [⟨0, .DrawPoint (.T ⟨.T 7, .T 8⟩)⟩,
         ⟨1, .DrawLine (.Ref ⟨[.Step, .WithId 0, .PropName "self"]⟩) (.T ⟨.T 9, .T 9⟩)⟩] :=
  c2_snap_index.2.2.2.2.2 _ _ rfl

/-- Counterexample to C3 as stated: on a redraw tick with an armed infer
target and no snap point within threshold, the hover candidate becomes the
literal point at the ROUNDED cursor coordinates, not at the raw cursor
coordinates.  With no steps and cursor `(1/4, 1/4)` the hover candidate is
the literal `(0, 0)`, not the literal `(1/4, 1/4)` the claim requires. -/
theorem c3_counterexample :
    hoverAfterEffect [] 1 ⟨1 / 4, 1 / 4⟩ = .ok (.T ⟨.T 0, .T 0⟩) ∧
    hoverAfterEffect [] 1 ⟨1 / 4, 1 / 4⟩ ≠ .ok (.T ⟨.T (1 / 4), .T (1 / 4)⟩) := by
  have h : hoverAfterEffect [] 1 ⟨1 / 4, 1 / 4⟩ = .ok (.T ⟨.T 0, .T 0⟩) := by
    simp [hoverAfterEffect, hoverLoop, snapPointsIndex, roundedCursor, rustRound]
    norm_num
  refine ⟨h, ?_⟩
  rw [h]
  intro hcontra
  simp only [Except.ok.injEq, ResolvableTo.T.injEq, PointSignal.mk.injEq] at hcontra
  norm_num at hcontra

/-- Claim C3 (amended): on a redraw tick while an infer target is armed,
provided every snap point resolves, the hover candidate becomes
`Ref(sp)` for the LAST snap point `sp` in index iteration order whose
resolved position is within 5 logical units of the cursor; if no snap
point is within threshold it becomes the free literal point at the
ROUNDED cursor coordinates (the source rounds with `f64::round` before
storing the free candidate). -/
theorem c3_hover_candidate (steps : List Step) (fuel : Nat) (cursor : Point)
    (hok : ∀ sp ∈ snapPointsIndex steps, (resolveRefPoint steps fuel sp).isOk = true) :
    hoverAfterEffect steps fuel cursor =
      .ok (match lastMatch (snapHit steps fuel cursor) (snapPointsIndex steps) with
           | some sp => .Ref sp
           | none => roundedCursor cursor) :=
  hoverLoop_lastMatch steps fuel cursor (snapPointsIndex steps) (roundedCursor cursor) hok

/-- Witness for C3 (amended): a single literal point step at the origin,
cursor at `(1, 1)`: every snap point resolves, and the theorem applies. -/
theorem c3_hover_candidate_witness :
    (∀ sp ∈ snapPointsIndex [⟨0, .DrawPoint (.T ⟨.T 0, .T 0⟩)⟩],
      (resolveRefPoint [⟨0, .DrawPoint (.T ⟨.T 0, .T 0⟩)⟩] 3 sp).isOk = true) ∧
    hoverAfterEffect [⟨0, .DrawPoint (.T ⟨.T 0, .T 0⟩)⟩] 3 ⟨1, 1⟩ =
      .ok (match lastMatch (snapHit [⟨0, .DrawPoint (.T ⟨.T 0, .T 0⟩)⟩] 3 ⟨1, 1⟩)
              (snapPointsIndex [⟨0, .DrawPoint (.T ⟨.T 0, .T 0⟩)⟩]) with
           | some sp => .Ref sp
           | none => roundedCursor ⟨1, 1⟩) :=
  ⟨by decide, c3_hover_candidate _ 3 ⟨1, 1⟩ (by decide)⟩

/-- Counterexample to C4 as stated: with an armed NUMBER slot (a scalar
infer target) and a hover candidate present, a canvas pointer-down changes
nothing — in particular the armed state does NOT return to `Idle`, contrary
to the claim that every armed slot kind is committed and cleared by a
canvas click. -/
theorem c4_counterexample :
    mousedown ⟨[⟨0, .DrawPoint (.T ⟨.T 0, .T 0⟩)⟩], [],
               some (.Number ⟨0⟩), some (.T ⟨.T 3, .T 3⟩)⟩ =
      ⟨[⟨0, .DrawPoint (.T ⟨.T 0, .T 0⟩)⟩], [],
       some (.Number ⟨0⟩), some (.T ⟨.T 3, .T 3⟩)⟩ ∧
    (mousedown ⟨[⟨0, .DrawPoint (.T ⟨.T 0, .T 0⟩)⟩], [],
                some (.Number ⟨0⟩), some (.T ⟨.T 3, .T 3⟩)⟩).infer_target ≠ none :=
  ⟨rfl, by decide⟩

/-- Claim C4 (amended): a canvas pointer-down while armed commits only
POINT slot targets: it writes the current hover candidate into the armed
point slot, entirely replacing its prior resolvable, and clears the armed
state to `Idle`; an armed NUMBER (scalar) slot target, or no armed target,
leaves the state untouched. -/
theorem c4_click_commits_point_targets
    : (∀ (st : AppState) (it : PointSlotAddr) (hover : ResolvableTo PointSignal),
        st.infer_target = some (.Point it) → st.hover_infer_target = some hover →
        mousedown st =
          { st with steps := setPointSlot st.steps it hover, infer_target := none })
    ∧ (∀ (st : AppState) (a : NumSlotAddr),
        st.infer_target = some (.Number a) → mousedown st = st)
    ∧ (∀ st : AppState, st.infer_target = none → mousedown st = st) := by
  refine ⟨?_, ?_, ?_⟩
  · intro st it hover h1 h2
    simp [mousedown, h1, h2]
  · intro st a h1
    simp [mousedown, h1]
  · intro st h1
    simp [mousedown, h1]

/-- Witness for C4 (amended): arming infer on the point slot of step 0
with hover candidate `Ref(step[1].mid)`, a pointer-down writes the
reference into the slot and clears the armed state. -/
theorem c4_click_commits_point_targets_witness :
    mousedown ⟨[⟨0, .DrawPoint (.T ⟨.T 0, .T 0⟩)⟩], [],
               some (.Point (.drawPointSlot 0)),
               some (.Ref ⟨[.Step, .WithId 1, .PropName "mid"]⟩)⟩ =
      { steps := setPointSlot [⟨0, .DrawPoint (.T ⟨.T 0, .T 0⟩)⟩] (.drawPointSlot 0)
                   (.Ref ⟨[.Step, .WithId 1, .PropName "mid"]⟩),
        datas := [],
        infer_target := none,
        hover_infer_target := some (.Ref ⟨[.Step, .WithId 1, .PropName "mid"]⟩) } :=
  c4_click_commits_point_targets.1 _ _ _ rfl rfl

/-- Claim C5, evaluated at the failing input: a reference path whose id
names a step no longer present does NOT fail gracefully — the source hits
`.expect("Invalid step id")`, a panic, and the panic aborts the whole
redraw pass, so no other primitive is drawn.  The same scene without the
dangling step renders fine, showing the valid primitive alone would have
drawn. -/
theorem c5_dangling_reference_panics :
    resolveRefPoint
        [⟨0, .DrawLine (.Ref ⟨[.Step, .WithId 5, .PropName "end"]⟩) (.T ⟨.T 1, .T 1⟩)⟩,
         ⟨1, .DrawPoint (.T ⟨.T 2, .T 2⟩)⟩] 10
        ⟨[.Step, .WithId 5, .PropName "end"]⟩ = .error .panicInvalidStepId ∧
    renderSteps
        [⟨0, .DrawLine (.Ref ⟨[.Step, .WithId 5, .PropName "end"]⟩) (.T ⟨.T 1, .T 1⟩)⟩,
         ⟨1, .DrawPoint (.T ⟨.T 2, .T 2⟩)⟩] 10 = .error .panicInvalidStepId ∧
    renderSteps [⟨1, .DrawPoint (.T ⟨.T 2, .T 2⟩)⟩] 10 =
      .ok [.circle ⟨2, 2⟩] :=
  ⟨by decide, by decide, by decide⟩

/-- Claim C6, evaluated at the failing input: a property name invalid for
the target kind does NOT produce a recoverable `InvalidProperty` result —
point resolution hits the `panic!` branch and scalar resolution hits a
`todo!`, both of which abort the program. -/
theorem c6_invalid_property_panics :
    resolveRefPoint [⟨0, .DrawPoint (.T ⟨.T 1, .T 2⟩)⟩] 10
        ⟨[.Step, .WithId 0, .PropName "wat"]⟩ = .error .panicInvalidProp ∧
    resolveRefPoint [⟨0, .DrawLine (.T ⟨.T 0, .T 0⟩) (.T ⟨.T 1, .T 1⟩)⟩] 10
        ⟨[.Step, .WithId 0, .PropName "wat"]⟩ = .error .panicInvalidProp ∧
    resolveRefNum [⟨0, .DrawPoint (.T ⟨.T 1, .T 2⟩)⟩] 10
        ⟨[.Step, .WithId 0, .PropName "wat"]⟩ = .error .todoUnreached :=
  ⟨by decide, by decide, by decide⟩

/-- Claim C7: cancelling an armed infer (for any target kind, scalar or
point) clears the armed target to `Idle` while leaving every stored
resolvable — the whole step list, the data list and even the hover
candidate — unchanged: arm-then-cancel is the identity on everything but
the armed target, which ends at `none`. -/
theorem c7_cancel_preserves_slots (st : AppState) (t : InferTarget) :
    (cancelInfer (armInfer st t)).steps = st.steps ∧
    (cancelInfer (armInfer st t)).datas = st.datas ∧
    (cancelInfer (armInfer st t)).hover_infer_target = st.hover_infer_target ∧
    (cancelInfer (armInfer st t)).infer_target = none :=
  ⟨rfl, rfl, rfl, rfl⟩

/-- Claim C8, evaluated at the failing input: ids are NOT strictly
increasing across a session with removals.  After add, add, remove id 0,
add, the new step receives `id = s.len() = 1`, which duplicates the id of
the surviving step and reuses an id created earlier in the session: the
final id list is `[1, 1]`. -/
theorem c8_id_reused_after_removal :
    (add_draw_point_step (removeStep
        (add_draw_point_step (add_draw_point_step [])) 0)).map Step.id = [1, 1] := by
  decide

/-- Claim C9: the `end_path` built for the end endpoint of a `DrawLine`
editor appends `PropName("start")` — identical to `start_path` — so a
scalar infer committed on the x coordinate of the end endpoint stores a
reference addressing `step[id].start.x` rather than `step[id].end.x`:
on a line with start `(1,2)` and end `(3,4)` the committed reference
resolves to `1` (start x), not `3`. -/
theorem c9_end_path_addresses_start
    : (∀ step : Step,
        drawLineEndPath (innerStepViewBasePath step) =
          drawLineStartPath (innerStepViewBasePath step))
    ∧ (∀ step : Step,
        scalarXPath (drawLineEndPath (innerStepViewBasePath step)) =
          [.Step, .WithId step.id, .PropName "start", .PropName "x"])
    ∧ committedNumberValue (scalarXPath (drawLineEndPath
        (innerStepViewBasePath ⟨7, .DrawLine (.T ⟨.T 1, .T 2⟩) (.T ⟨.T 3, .T 4⟩)⟩))) =
        .Ref ⟨[.Step, .WithId 7, .PropName "start", .PropName "x"]⟩
    ∧ resolveNum [⟨7, .DrawLine (.T ⟨.T 1, .T 2⟩) (.T ⟨.T 3, .T 4⟩)⟩] 10
        (committedNumberValue (scalarXPath (drawLineEndPath
          (innerStepViewBasePath ⟨7, .DrawLine (.T ⟨.T 1, .T 2⟩) (.T ⟨.T 3, .T 4⟩)⟩)))) =
        .ok 1 :=
  ⟨fun step => rfl, fun step => rfl, rfl, by decide⟩

/-- Claim C10: when the armed infer target is a NUMBER slot, a canvas
pointer-down neither writes any slot nor clears the armed state — the
entire session state, steps included, is unchanged by the click. -/
theorem c10_number_target_ignored_by_click
    (st : AppState) (a : NumSlotAddr)
    (h : st.infer_target = some (.Number a)) :
    mousedown st = st := by
  simp [mousedown, h]

/-- Witness for C10: a concrete state with an armed number slot is fixed
by `mousedown`. -/
theorem c10_number_target_ignored_by_click_witness :
    mousedown ⟨[], [], some (.Number ⟨5⟩), some (.T ⟨.T 1, .T 1⟩)⟩ =
      ⟨[], [], some (.Number ⟨5⟩), some (.T ⟨.T 1, .T 1⟩)⟩ :=
  c10_number_target_ignored_by_click _ ⟨5⟩ rfl
